import Mathlib

/-!
Shallow embedding of the ProScout Device-Management telemetry core
(GPS NMEA fusion, IMU producer loop, session scheduler tick, upload
engine with durable offline queue) and proofs about the embedded code.

Conventions: Python strings are embedded as `List Char` (Python slicing
is code-point based), Python floats as exact rationals `ℚ` (the source
only adds, divides and scales decimal literals; every tolerance in the
properties below dwarfs binary-float rounding), fallible Python
expressions as `Option`, and a Python `except` block that abandons the
remaining statements of a `try` body as an `Option` chain that keeps the
updates already performed.  Network and sensor I/O is supplied by
explicit oracles (one outcome per attempt / per cycle).  Filesystem
writes and removals are modelled as succeeding; the success of the
quarantine rename is supplied by an oracle, since the code handles its
failure explicitly.
-/

namespace DeviceManagement

/-- Characters of a string literal, embedding Python string values. -/
def chars (s : String) : List Char := s.toList

/-- String split on one separator character, as Python `str.split(sep)`
with a single-character separator. -/
def splitOnChar (sep : Char) : List Char → List (List Char)
  | [] => [[]]
  | c :: cs =>
    let rest := splitOnChar sep cs
    if c = sep then [] :: rest
    else match rest with
      | [] => [[c]]
      | f :: fs => (c :: f) :: fs

/-- `sentence.split(',')` as in `GPSManager.parse_rmc` and friends. -/
def splitComma (s : List Char) : List (List Char) := splitOnChar ',' s

/-- Digit string to a natural number (helper for numeric parsing). -/
def digitsToNat (s : List Char) : ℕ :=
  s.foldl (fun n c => 10 * n + (c.toNat - '0'.toNat)) 0

/-- Unsigned decimal numeral (digits with at most one dot) to an exact
rational; `none` models Python `float(...)` raising `ValueError`. -/
def parseUnsigned (s : List Char) : Option ℚ :=
  match splitOnChar '.' s with
  | [ip] =>
    if ip ≠ [] ∧ ip.all Char.isDigit then some ((digitsToNat ip : ℚ)) else none
  | [ip, fp] =>
    if (ip ≠ [] ∨ fp ≠ []) ∧ ip.all Char.isDigit ∧ fp.all Char.isDigit then
      some ((digitsToNat ip : ℚ) + (digitsToNat fp : ℚ) / 10 ^ fp.length)
    else none
  | _ => none

/-- Python `float(s)` on the numeral strings NMEA fields carry, with an
optional sign character. -/
def pfloat (s : List Char) : Option ℚ :=
  if s.headD ' ' = '-' then (parseUnsigned s.tail).map (fun q => -q)
  else if s.headD ' ' = '+' then parseUnsigned s.tail
  else parseUnsigned s

/-- Python `int(s)` on decimal numeral strings, with an optional sign
character. -/
def pint (s : List Char) : Option ℤ :=
  if s.headD ' ' = '-' then
    if s.tail ≠ [] ∧ s.tail.all Char.isDigit then some (-(digitsToNat s.tail : ℤ)) else none
  else if s.headD ' ' = '+' then
    if s.tail ≠ [] ∧ s.tail.all Char.isDigit then some ((digitsToNat s.tail : ℤ)) else none
  else if s ≠ [] ∧ s.all Char.isDigit then some ((digitsToNat s : ℤ)) else none

/-- Does `hay` contain `needle` as a contiguous substring
(Python `needle in hay`)? -/
def containsSub (needle : List Char) : List Char → Bool
  | [] => needle.isPrefixOf ([] : List Char)
  | c :: cs => needle.isPrefixOf (c :: cs) || containsSub needle cs

/-- The GPS fix record `GPSManager.gps_data` (src/gps_manager.py,
`__init__`): one mutable dictionary updated field-by-field by the four
sentence parsers. -/
structure GpsData where
  fix_status : List Char
  latitude : ℚ
  longitude : ℚ
  altitude : ℚ
  speed_knots : ℚ
  speed_kmh : ℚ
  course : ℚ
  satellites_used : ℤ
  satellites_view : ℤ
  hdop : ℚ
  pdop : ℚ
  vdop : ℚ
  time_utc : List Char
  date : List Char
  last_update : List Char
  satellite_systems : List (List Char)
  signal_quality : List Char
  data_timestamp : ℚ
deriving DecidableEq, Repr

/-- Initial GPS record as built in `GPSManager.__init__`, with `now` the
construction-time `time.time()`. -/
def initGpsData (now : ℚ) : GpsData where
  fix_status := chars "No Fix"
  latitude := 0
  longitude := 0
  altitude := 0
  speed_knots := 0
  speed_kmh := 0
  course := 0
  satellites_used := 0
  satellites_view := 0
  hdop := 0
  pdop := 0
  vdop := 0
  time_utc := chars "N/A"
  date := chars "N/A"
  last_update := chars "N/A"
  satellite_systems := []
  signal_quality := chars "Unknown"
  data_timestamp := now

/-- `parts[i]` for an index the code has bounds-checked via
`len(parts) >= n`. -/
def field (parts : List (List Char)) (i : ℕ) : List Char := parts.getD i []

/-- RMC time update: `parts[1]` formatted `HH:MM:SS` when at least six
characters long (src/gps_manager.py lines 88-90). -/
def rmcTime (parts : List (List Char)) (g : GpsData) : GpsData :=
  if 6 ≤ (field parts 1).length then
    { g with time_utc := (field parts 1).take 2 ++ ':' :: ((field parts 1).drop 2).take 2
        ++ ':' :: ((field parts 1).drop 4).take 2 }
  else g

/-- RMC status update: `fix_status` from `parts[2]` (lines 93-94). -/
def rmcStatus (parts : List (List Char)) (g : GpsData) : GpsData :=
  { g with fix_status := if field parts 2 = chars "A" then chars "Valid Fix" else chars "No Fix" }

/-- RMC position update (lines 97-114): only when the status field is
`A` and both coordinate fields are non-empty; `none` models a
`ValueError` from one of the four `float(...)` calls, which aborts the
rest of `parse_rmc` before any assignment of this block. -/
def rmcPos (parts : List (List Char)) (g : GpsData) : Option GpsData :=
  if field parts 2 = chars "A" then
    let lat_str := field parts 3
    let lon_str := field parts 5
    if lat_str ≠ [] ∧ lon_str ≠ [] then
      match pfloat (lat_str.take 2), pfloat (lat_str.drop 2) with
      | some d, some m =>
        let lat := if field parts 4 = chars "S" then -(d + m / 60) else d + m / 60
        match pfloat (lon_str.take 3), pfloat (lon_str.drop 3) with
        | some dd, some mm =>
          let lon := if field parts 6 = chars "W" then -(dd + mm / 60) else dd + mm / 60
          some { g with latitude := lat, longitude := lon }
        | _, _ => none
      | _, _ => none
    else some g
  else some g

/-- RMC speed update (lines 117-120): unconditional on fix validity;
`speed_kmh` is knots times 1.852. -/
def rmcSpeed (parts : List (List Char)) (g : GpsData) : Option GpsData :=
  if field parts 7 ≠ [] then
    match pfloat (field parts 7) with
    | some q => some { g with speed_knots := q, speed_kmh := q * (1852 / 1000) }
    | none => none
  else some g

/-- RMC course update (lines 123-125): unconditional on fix validity. -/
def rmcCourse (parts : List (List Char)) (g : GpsData) : Option GpsData :=
  if field parts 8 ≠ [] then
    match pfloat (field parts 8) with
    | some q => some { g with course := q }
    | none => none
  else some g

/-- RMC date update (lines 128-130). -/
def rmcDate (parts : List (List Char)) (g : GpsData) : GpsData :=
  if 6 ≤ (field parts 9).length then
    { g with date := chars "20" ++ ((field parts 9).drop 4).take 2
        ++ '-' :: ((field parts 9).drop 2).take 2 ++ '-' :: (field parts 9).take 2 }
  else g

/-- `GPSManager.parse_rmc` (src/gps_manager.py lines 82-133).  The
surrounding `try/except: pass` means a failed numeric conversion keeps
every update already performed and silently drops the rest. -/
def parse_rmc (sentence : List Char) (g : GpsData) : GpsData :=
  let parts := splitComma sentence
  if 12 ≤ parts.length then
    let g1 := rmcStatus parts (rmcTime parts g)
    match rmcPos parts g1 with
    | none => g1
    | some g2 =>
      match rmcSpeed parts g2 with
      | none => g2
      | some g3 =>
        match rmcCourse parts g3 with
        | none => g3
        | some g4 => rmcDate parts g4
  else g

/-- GGA fix-quality lookup table (src/gps_manager.py lines 142-154). -/
def qualityMap (fq : List Char) : List Char :=
  if fq = chars "0" then chars "No Fix"
  else if fq = chars "1" then chars "GPS Fix"
  else if fq = chars "2" then chars "DGPS Fix"
  else if fq = chars "3" then chars "PPS Fix"
  else if fq = chars "4" then chars "RTK Fix"
  else if fq = chars "5" then chars "Float RTK"
  else if fq = chars "6" then chars "Estimated"
  else if fq = chars "7" then chars "Manual"
  else if fq = chars "8" then chars "Simulation"
  else chars "Unknown"

/-- GGA satellites-used update (lines 157-159). -/
def ggaSats (parts : List (List Char)) (g : GpsData) : Option GpsData :=
  if field parts 7 ≠ [] then
    (pint (field parts 7)).map (fun n => { g with satellites_used := n })
  else some g

/-- GGA HDOP update (lines 162-164). -/
def ggaHdop (parts : List (List Char)) (g : GpsData) : Option GpsData :=
  if field parts 8 ≠ [] then
    (pfloat (field parts 8)).map (fun q => { g with hdop := q })
  else some g

/-- GGA altitude update (lines 167-169). -/
def ggaAlt (parts : List (List Char)) (g : GpsData) : Option GpsData :=
  if field parts 9 ≠ [] then
    (pfloat (field parts 9)).map (fun q => { g with altitude := q })
  else some g

/-- `GPSManager.parse_gga` (src/gps_manager.py lines 135-172). -/
def parse_gga (sentence : List Char) (g : GpsData) : GpsData :=
  let parts := splitComma sentence
  if 15 ≤ parts.length then
    let fq := field parts 6
    let g1 := if fq ≠ [] then { g with signal_quality := qualityMap fq } else g
    match ggaSats parts g1 with
    | none => g1
    | some g2 =>
      match ggaHdop parts g2 with
      | none => g2
      | some g3 => (ggaAlt parts g3).getD g3
  else g

/-- GSA fix-type update (src/gps_manager.py lines 180-186). -/
def gsaFix (parts : List (List Char)) (g : GpsData) : GpsData :=
  if field parts 2 = chars "1" then { g with fix_status := chars "No Fix" }
  else if field parts 2 = chars "2" then { g with fix_status := chars "2D Fix" }
  else if field parts 2 = chars "3" then { g with fix_status := chars "3D Fix" }
  else g

/-- GSA PDOP update (line 189-190). -/
def gsaPdop (parts : List (List Char)) (g : GpsData) : Option GpsData :=
  if field parts 15 ≠ [] then
    (pfloat (field parts 15)).map (fun q => { g with pdop := q })
  else some g

/-- GSA HDOP update (line 191-192). -/
def gsaHdop (parts : List (List Char)) (g : GpsData) : Option GpsData :=
  if field parts 16 ≠ [] then
    (pfloat (field parts 16)).map (fun q => { g with hdop := q })
  else some g

/-- GSA VDOP update (lines 193-194): the checksum suffix is stripped by
`parts[17].split('*')[0]` before the numeric parse. -/
def gsaVdop (parts : List (List Char)) (g : GpsData) : Option GpsData :=
  if (splitOnChar '*' (field parts 17)).getD 0 [] ≠ [] then
    (pfloat ((splitOnChar '*' (field parts 17)).getD 0 [])).map (fun q => { g with vdop := q })
  else some g

/-- `GPSManager.parse_gsa` (src/gps_manager.py lines 174-197). -/
def parse_gsa (sentence : List Char) (g : GpsData) : GpsData :=
  let parts := splitComma sentence
  if 18 ≤ parts.length then
    let g1 := gsaFix parts g
    match gsaPdop parts g1 with
    | none => g1
    | some g2 =>
      match gsaHdop parts g2 with
      | none => g2
      | some g3 => (gsaVdop parts g3).getD g3
  else g

/-- GSV constellation tag from the sentence's talker prefix
(src/gps_manager.py lines 205-217). -/
def gsvSystem (parts : List (List Char)) : List Char :=
  let st := field parts 0
  if (chars "$GP").isPrefixOf st then chars "GPS"
  else if (chars "$GL").isPrefixOf st then chars "GLONASS"
  else if (chars "$GA").isPrefixOf st then chars "Galileo"
  else if (chars "$GB").isPrefixOf st then chars "BeiDou"
  else if (chars "$GN").isPrefixOf st then chars "Multi-GNSS"
  else chars "Unknown"

/-- `GPSManager.parse_gsv` (src/gps_manager.py lines 199-229): records
the constellation tag (deduplicated) and, only for the first message of
a sequence, the satellites-in-view count. -/
def parse_gsv (sentence : List Char) (g : GpsData) : GpsData :=
  let parts := splitComma sentence
  if 4 ≤ parts.length then
    let sys := gsvSystem parts
    let g1 := if g.satellite_systems.contains sys then g
      else { g with satellite_systems := g.satellite_systems ++ [sys] }
    if field parts 2 = chars "1" then
      let s := field parts 3
      if s ≠ [] then
        match pint s with
        | some n => { g1 with satellites_view := n }
        | none => g1
      else g1
    else g1
  else g

/-- `GPSManager._parse_nmea_line` (src/gps_manager.py lines 62-80):
substring dispatch on the sentence kind, then the freshness timestamp
and last-update clock are written for any dispatched line.  `now` is
`time.time()` and `nowStr` the formatted wall clock at that moment. -/
def parseNmeaLine (now : ℚ) (nowStr : List Char) (sentence : List Char) (g : GpsData) : GpsData :=
  let g1 :=
    if containsSub (chars "RMC") sentence then parse_rmc sentence g
    else if containsSub (chars "GGA") sentence then parse_gga sentence g
    else if containsSub (chars "GSA") sentence then parse_gsa sentence g
    else if containsSub (chars "GSV") sentence then parse_gsv sentence g
    else g
  { g1 with data_timestamp := now, last_update := nowStr }

/-- One read iteration of `GPSManager._continuous_read`
(src/gps_manager.py lines 49-60): only a non-empty line that starts with
`$` and contains `*` is handed to the sentence parser. -/
def continuousReadStep (now : ℚ) (nowStr : List Char) (line : List Char) (g : GpsData) : GpsData :=
  if line ≠ [] ∧ (chars "$").isPrefixOf line ∧ line.contains '*' then
    parseNmeaLine now nowStr line g
  else g

/-- `GPSManager.get_data_age` (src/gps_manager.py lines 237-240). -/
def getDataAge (now : ℚ) (g : GpsData) : ℚ := now - g.data_timestamp

/-- A well-formed RMC sentence with an active (`A`) fix, the coordinate
pair used by the coordinate-conversion test vector. -/
def rmcActiveSentence : List Char :=
  chars "$GPRMC,123519,A,4807.038,N,01131.000,W,022.4,084.4,230394,003.1,W*6A"

/-- The same RMC sentence with the fix-validity field set to `V`
(inactive) and non-empty speed and course fields. -/
def rmcInactiveSentence : List Char :=
  chars "$GPRMC,123519,V,4807.038,N,01131.000,E,022.4,084.4,230394,003.1,W*6A"

/-! ### Upload engine (src/upload.py) -/

/-- Outcome of one HTTP POST attempt, as distinguished by the `except`
arms of `CloudFunctionClient.upload_json` and the offline replay loop:
`created` is a 201 response, `httpErr` any other status,
`connErr` a `ConnectionError`/`ChunkedEncodingError`/`HTTPError`,
`timeoutErr` a `Timeout`, `netErr` any other `RequestException`, and
`otherExc` any other exception raised by the attempt. -/
inductive NetOutcome
  | created
  | httpErr
  | connErr
  | timeoutErr
  | netErr
  | otherExc
deriving DecidableEq, Repr

/-- `max_retries = 2` as set in `upload_json` (src/upload.py line 73)
and in the offline replay loop (line 240). -/
def max_retries : ℕ := 2

/-- `upload_json` always returns a dictionary: a success body on 201 or
an error body otherwise; it never raises past the submit boundary. -/
inductive UploadResult
  | ok
  | err
deriving DecidableEq, Repr

/-- Observable effects of one `upload_json` call: the returned result,
the number of POST attempts performed, the number of durable files
written by `save_to_disk`, and the backoff sleeps taken (seconds, in
order). -/
structure UploadOutcome where
  result : UploadResult
  attempts : ℕ
  saved : ℕ
  backoffs : List ℕ
deriving DecidableEq, Repr

/-- The retry loop of `CloudFunctionClient.upload_json` (src/upload.py
lines 72-145), from attempt number `attempt` with `fuel` iterations of
`for attempt in range(max_retries + 1)` remaining; `nonempty` is the
`len(batch_payload) > 0` guard on `save_to_disk`.  A non-201 response
returns an error immediately; connection errors and timeouts sleep
`2 ** attempt` and retry while `attempt < max_retries`, saving to disk
on the final attempt; other `RequestException`s save and return; any
other exception returns without saving. -/
def uploadJsonGo (oracle : ℕ → NetOutcome) (nonempty : Bool) : ℕ → ℕ → UploadOutcome
  | _, 0 => ⟨.err, 0, 0, []⟩
  | attempt, fuel + 1 =>
    match oracle attempt with
    | .created => ⟨.ok, 1, 0, []⟩
    | .httpErr => ⟨.err, 1, 0, []⟩
    | .connErr =>
      if attempt < max_retries then
        let r := uploadJsonGo oracle nonempty (attempt + 1) fuel
        ⟨r.result, r.attempts + 1, r.saved, 2 ^ attempt :: r.backoffs⟩
      else ⟨.err, 1, if nonempty then 1 else 0, []⟩
    | .timeoutErr =>
      if attempt < max_retries then
        let r := uploadJsonGo oracle nonempty (attempt + 1) fuel
        ⟨r.result, r.attempts + 1, r.saved, 2 ^ attempt :: r.backoffs⟩
      else ⟨.err, 1, if nonempty then 1 else 0, []⟩
    | .netErr => ⟨.err, 1, if nonempty then 1 else 0, []⟩
    | .otherExc => ⟨.err, 1, 0, []⟩

/-- `CloudFunctionClient.upload_json` on a batch payload, driven by an
oracle giving the network outcome of each POST attempt.  Payload
entries are abstracted to identifiers; the serialized wire format does
not affect control flow. -/
def upload_json (payload : List ℕ) (oracle : ℕ → NetOutcome) : UploadOutcome :=
  uploadJsonGo oracle (!payload.isEmpty) 0 (max_retries + 1)

/-- Content classification of one durable queue file, as the replay
loop distinguishes it: a file whose contents fail `json.load`
(`badJson`), a file whose parsed data has `len(data) == 0`
(`emptyData`), or a well-formed non-empty batch (`good`).  Zero-byte
files are recognized by their size before parsing. -/
inductive FileData
  | badJson
  | emptyData
  | good
deriving DecidableEq, Repr

/-- One file of the durable offline queue. -/
structure QFile where
  name : List Char
  size : ℕ
  data : FileData
deriving DecidableEq, Repr

/-- Filesystem and network events emitted by one replay cycle:
`deleted` is an `os.remove` without a prior move, `moved` is the rename
into the `problematic/` quarantine directory, `attempted n k` is the
`k`-th POST attempt for file `n`, and `uploaded` is a 201 response
followed by `os.remove`. -/
inductive Evt
  | deleted (name : List Char)
  | moved (name : List Char)
  | attempted (name : List Char) (attempt : ℕ)
  | uploaded (name : List Char)
deriving DecidableEq, Repr

/-- The filename an event concerns. -/
def evtName : Evt → List Char
  | .deleted n => n
  | .moved n => n
  | .attempted n _ => n
  | .uploaded n => n

/-- The per-file retry loop of `upload_offline_data` (src/upload.py
lines 239-305): non-201 responses, connection errors and timeouts
retry (with backoff) while `attempt < max_retries`; a `201` deletes
the file and sets `upload_success`; any other exception breaks out of
the retry loop.  Returns the events emitted and whether the upload
succeeded. -/
def offlineRetry (oracle : List Char → ℕ → NetOutcome) (name : List Char) :
    ℕ → ℕ → List Evt × Bool
  | _, 0 => ([], false)
  | attempt, fuel + 1 =>
    match oracle name attempt with
    | .created => ([.attempted name attempt, .uploaded name], true)
    | .httpErr =>
      if attempt < max_retries then
        let r := offlineRetry oracle name (attempt + 1) fuel
        (.attempted name attempt :: r.1, r.2)
      else ([.attempted name attempt], false)
    | .connErr =>
      if attempt < max_retries then
        let r := offlineRetry oracle name (attempt + 1) fuel
        (.attempted name attempt :: r.1, r.2)
      else ([.attempted name attempt], false)
    | .timeoutErr =>
      if attempt < max_retries then
        let r := offlineRetry oracle name (attempt + 1) fuel
        (.attempted name attempt :: r.1, r.2)
      else ([.attempted name attempt], false)
    | .netErr => ([.attempted name attempt], false)
    | .otherExc => ([.attempted name attempt], false)

/-- Processing of a single queue file inside one replay cycle
(src/upload.py lines 195-311): zero-byte files are deleted before
parsing; files failing `json.load` are renamed into `problematic/`
(lines 208-218) — and when that rename (or the directory creation it
needs) fails, the fallback at lines 219-224 deletes the file without
moving it aside; `ren` says whether the quarantine rename for a given
filename succeeds (the fallback `os.remove` is modelled as
succeeding).  Parsed-but-empty files are deleted; well-formed files go
through the bounded retry loop and are removed only on a 201.  Returns
the events and whether the file stays in the queue (`continue` on
exhausted retries keeps it for the next cycle). -/
def processFile (oracle : List Char → ℕ → NetOutcome) (ren : List Char → Bool)
    (f : QFile) : List Evt × Bool :=
  if f.size = 0 then ([.deleted f.name], false)
  else match f.data with
    | .badJson =>
      if ren f.name then ([.moved f.name], false)
      else ([.deleted f.name], false)
    | .emptyData => ([.deleted f.name], false)
    | .good =>
      let r := offlineRetry oracle f.name 0 (max_retries + 1)
      (r.1, !r.2)

/-- Lexicographic (code-point) strict order on filenames, as Python
`sorted` compares strings. -/
def lexLt : List Char → List Char → Bool
  | [], [] => false
  | [], _ :: _ => true
  | _ :: _, [] => false
  | a :: as, b :: bs => if a = b then lexLt as bs else decide (a < b)

/-- Stable insertion into a name-sorted queue listing. -/
def insertByName (f : QFile) : List QFile → List QFile
  | [] => [f]
  | g :: gs => if lexLt f.name g.name then f :: g :: gs else g :: insertByName f gs

/-- `sorted(files)` over the queue listing (src/upload.py line 195). -/
def sortByName : List QFile → List QFile
  | [] => []
  | f :: fs => insertByName f (sortByName fs)

/-- The `for filename in sorted(files)` loop body over an already
sorted listing: events concatenate in order; the files kept are those
whose upload failed (skipped with `continue`, left for the next
cycle). -/
def replayFiles (oracle : List Char → ℕ → NetOutcome) (ren : List Char → Bool) :
    List QFile → List Evt × List QFile
  | [] => ([], [])
  | f :: fs =>
    let r := processFile oracle ren f
    let rest := replayFiles oracle ren fs
    (r.1 ++ rest.1, (if r.2 then [f] else []) ++ rest.2)

/-- One full cycle of `CloudFunctionClient.upload_offline_data`
(src/upload.py lines 182-336): list the queue, sort by filename,
process each file in order, then sleep until the next cycle. -/
def replayCycle (oracle : List Char → ℕ → NetOutcome) (ren : List Char → Bool)
    (files : List QFile) : List Evt × List QFile :=
  replayFiles oracle ren (sortByName files)

/-- Two well-formed queued batch files, the first created (and so
named) earlier than the second. -/
def fileA : QFile := ⟨chars "a.json", 5, .good⟩

/-- See `fileA`. -/
def fileB : QFile := ⟨chars "b.json", 5, .good⟩

/-- Network oracle: every attempt for `fileA` hits a connection error,
every other upload returns 201. -/
def oracleAFailsBOk : List Char → ℕ → NetOutcome :=
  fun name _ => if name = fileA.name then .connErr else .created

/-- Network oracle: every attempt fails with a connection error. -/
def oracleAllConnFail : List Char → ℕ → NetOutcome := fun _ _ => .connErr

/-- A queued file whose contents do not parse as JSON. -/
def badFile : QFile := ⟨chars "bad.json", 3, .badJson⟩

/-- Filesystem oracle: every quarantine rename succeeds. -/
def renameAlwaysOk : List Char → Bool := fun _ => true

/-- Filesystem oracle: every quarantine rename fails, exercising the
delete fallback of src/upload.py lines 219-224. -/
def renameAlwaysFail : List Char → Bool := fun _ => false

/-! ### IMU producer loop (src/V4/IMU_manager.py) -/

/-- What one cycle of `IMUManager.update_imu` runs into: all sensor
reads succeed and the tilt-compensated heading computes (`ok`), the
heading math raises inside `update_tilt_compensated_heading` — which
catches internally and returns `None`, so the sample is still appended
with a stale heading (`headingFail`) — or a sensor read raises out to
the `except` clause of the loop (`readFail`).  The payload identifies
the sample the cycle would append. -/
inductive ImuCycle
  | ok (sample : ℕ)
  | headingFail (sample : ℕ)
  | readFail
deriving DecidableEq, Repr

/-- The sample a cycle appends to the shared buffer, if any. -/
def sampleOf : ImuCycle → Option ℕ
  | .ok s => some s
  | .headingFail s => some s
  | .readFail => none

/-- `IMUManager.update_imu` (src/V4/IMU_manager.py lines 388-417): the
`while not self.stop_event.is_set()` loop; each cycle reads the nine
sensor axes, computes the heading, appends to the buffer and sleeps.
The `except` clause logs and `break`s out of the loop.  `stop i` is the
stop event as observed at the top of cycle `i`, `fuel` bounds the
cycles observed.  Returns the buffer contents appended, the number of
cycles entered, and whether the loop exited through the `except`
branch. -/
def updateImuLoop (oracle : ℕ → ImuCycle) (stop : ℕ → Bool) : ℕ → ℕ → List ℕ × ℕ × Bool
  | _, 0 => ([], 0, false)
  | i, fuel + 1 =>
    if stop i then ([], 0, false)
    else
      match oracle i with
      | .readFail => ([], 1, true)
      | .ok s =>
        let r := updateImuLoop oracle stop (i + 1) fuel
        (s :: r.1, r.2.1 + 1, r.2.2)
      | .headingFail s =>
        let r := updateImuLoop oracle stop (i + 1) fuel
        (s :: r.1, r.2.1 + 1, r.2.2)

/-- A sensor trace whose first cycle raises on a read and whose second
would produce sample 7. -/
def imuOracleFailFirst : ℕ → ImuCycle := fun i => if i = 0 then .readFail else .ok 7

/-- A sensor trace producing sample 5, then raising on a read. -/
def imuOracleOkThenFail : ℕ → ImuCycle := fun i => if i = 0 then .ok 5 else .readFail

/-! ### Session scheduler tick (src/V2/session.py) and camera
(src/camera.py) -/

/-- The GPS snapshot dictionary as `Session.run` consumes it. -/
structure SessGps where
  latitude : ℚ
  longitude : ℚ
  altitude : ℚ
  speed_kmh : ℚ
  course : ℚ
  fix_status : List Char
deriving DecidableEq, Repr

/-- The zeroed placeholder record substituted when the snapshot's fix
status is `No Fix` (src/V2/session.py lines 191-203). -/
def zeroGps : SessGps := ⟨0, 0, 0, 0, 0, chars "No Fix"⟩

/-- Outcome of `Camera.snap_as_base64` (src/camera.py lines 45-68): an
encoded image, or an exception (`raise Exception('Failed to capture
image')` on a failed read, and likewise for a failed JPEG encode). -/
inductive CamOutcome
  | image (img : ℕ)
  | captureFail
deriving DecidableEq, Repr

/-- Outcome of `get_imu_buffer_and_reset` as called in the tick loop:
a drained batch, or an exception from the drain (caught in
`Session.run` lines 222-235). -/
inductive ImuDrain
  | samples (l : List ℕ)
  | drainExc
deriving DecidableEq, Repr

/-- Sensor-side inputs a single tick of `Session.run` consumes. -/
structure TickInputs where
  gps : SessGps
  cam : CamOutcome
  flow_pulses : ℕ
  imu : ImuDrain
deriving DecidableEq, Repr

/-- Configuration of `Session` as read from `config.ini`
(src/V2/session.py lines 30-40). -/
structure TickConfig where
  camera_connected : Bool
  flow_meter_connected : Bool
  sleep_interval : ℕ
  flow_meter_pulses_per_litter : ℚ
deriving DecidableEq, Repr

/-- `self.camera_interval = sleep_interval//5` (src/V2/session.py line
86). -/
def camera_interval (sleep_interval : ℕ) : ℕ := sleep_interval / 5

/-- `interval_in_hours = sleep_interval/3600` (src/V2/session.py line
39); computed by the module but never used in the flow conversion. -/
def interval_in_hours (sleep_interval : ℕ) : ℚ := (sleep_interval : ℚ) / 3600

/-- `litter_per_hour = flow_counter/flow_meter_pulses_per_litter`
(src/V2/session.py line 217): the volumetric value recorded per tick
is the drained pulse count divided by the pulses-per-liter constant
alone. -/
def litter_per_hour (flow_counter : ℕ) (ppl : ℚ) : ℚ := (flow_counter : ℚ) / ppl

/-- Modelled from the spec: the conversion §4.3 step (3) describes,
"drain the flow-pulse counter and convert pulses to a volumetric rate
using a configured pulses-per-liter constant and the tick interval" —
liters divided by the tick interval expressed in hours. -/
def spec_flow_rate (flow_counter : ℕ) (ppl : ℚ) (sleep_interval : ℕ) : ℚ :=
  litter_per_hour flow_counter ppl / interval_in_hours sleep_interval

/-- One entry of the outgoing batch as assembled by
`Session.add_payload_to_batch` (src/V2/session.py lines 107-117). -/
structure BatchEntry where
  timestamp : ℕ
  flow_meter_counter : ℚ
  latitude : ℚ
  longitude : ℚ
  speed_kmh : ℚ
  heading : ℚ
  imu : List ℕ
  image_base_64 : Option ℕ
  gps_fix : Bool
deriving DecidableEq, Repr

/-- The uncaught exception that can escape a tick: `snap_as_base64`
raising on a capture failure (the call at src/V2/session.py line 209 is
not wrapped in any `try`). -/
inductive TickErr
  | captureExc
deriving DecidableEq, Repr

/-- The image-capture decision of one tick (src/V2/session.py lines
207-212): when a camera is present and the counter has reached
`camera_interval`, capture (resetting the counter); an exception from
the capture propagates.  Otherwise, with a camera, increment the
counter. -/
def camStepRun (cfg : TickConfig) (cam : CamOutcome) (counter : ℕ) :
    Except TickErr (Option ℕ × ℕ) :=
  if cfg.camera_connected ∧ counter = camera_interval cfg.sleep_interval then
    match cam with
    | .image i => .ok (some i, 0)
    | .captureFail => .error .captureExc
  else if cfg.camera_connected then .ok (none, counter + 1)
  else .ok (none, counter)

/-- One tick of `Session.run` (src/V2/session.py lines 188-251): GPS
snapshot with the zeroed substitute on `No Fix`; the camera decision
(whose failure propagates); the flow drain converted through
`litter_per_hour` when the flow meter is enabled; the IMU drain with
its exception caught to `[]`; then the batch entry is assembled. -/
def sessionTick (cfg : TickConfig) (inp : TickInputs) (counter now : ℕ) :
    Except TickErr (BatchEntry × ℕ) :=
  let gps := if inp.gps.fix_status = chars "No Fix" then zeroGps else inp.gps
  match camStepRun cfg inp.cam counter with
  | .error e => .error e
  | .ok r =>
    let flow : ℚ := if cfg.flow_meter_connected then
        litter_per_hour inp.flow_pulses cfg.flow_meter_pulses_per_litter else 0
    let imu : List ℕ := match inp.imu with | .samples l => l | .drainExc => []
    .ok (⟨now, flow, gps.latitude, gps.longitude, gps.speed_kmh, gps.course, imu, r.1,
      decide (gps.fix_status ≠ chars "No Fix")⟩, r.2)

/-- The `while self.running` tick loop of `Session.run`, with `fuel`
iterations observed: an uncaught tick exception terminates the loop
(no entry is appended for that tick and no later tick runs); the
second component records whether the loop died that way. -/
def sessionRun (cfg : TickConfig) (inputs : ℕ → TickInputs) :
    ℕ → ℕ → ℕ → List BatchEntry × Bool
  | _, _, 0 => ([], false)
  | i, c, fuel + 1 =>
    match sessionTick cfg (inputs i) c i with
    | .error _ => ([], true)
    | .ok r =>
      let rest := sessionRun cfg inputs (i + 1) r.2 fuel
      (r.1 :: rest.1, rest.2)

/-- The `should_i_snap_image` counter of `Session.run` at the start of
tick `i`, with a camera present and every capture succeeding
(src/V2/session.py lines 183 and 207-212): starts at 0; a tick whose
counter equals `camera_interval` captures and resets it to 0; any
other tick increments it. -/
def camCounter (k : ℕ) : ℕ → ℕ
  | 0 => 0
  | i + 1 => if camCounter k i = k then 0 else camCounter k i + 1

/-- Whether tick `i` captures an image (counter equal to
`camera_interval` at the start of the tick). -/
def camFires (k i : ℕ) : Bool := decide (camCounter k i = k)

/-- Scheduler configuration with the camera on and `sleep_interval`
0 (capture decision on every tick), used by the capture-failure run. -/
def camFailCfg : TickConfig := ⟨true, false, 0, 1⟩

/-- Tick inputs whose capture fails on every tick. -/
def camFailInputs : ℕ → TickInputs := fun _ => ⟨zeroGps, .captureFail, 0, .samples [1]⟩

/-- Flow-meter-only configuration: 2 pulses per liter, 7200-second
(2-hour) tick interval. -/
def flowCfg : TickConfig := ⟨false, true, 7200, 2⟩

/-- A tick's inputs with 10 drained pulses and a valid fix. -/
def flowInputs : TickInputs := ⟨⟨1, 2, 3, 4, 5, chars "Valid Fix"⟩, .image 0, 10, .samples []⟩

/-! Evaluation rules for the numeric parser, used to compute concrete
sentences. -/

lemma pfloat_unsigned (s : List Char) (h1 : s.headD ' ' ≠ '-') (h2 : s.headD ' ' ≠ '+') :
    pfloat s = parseUnsigned s := by
  unfold pfloat
  rw [if_neg h1, if_neg h2]

lemma parseUnsigned_dec (s ip fp : List Char) (h : splitOnChar '.' s = [ip, fp])
    (hok : (ip ≠ [] ∨ fp ≠ []) ∧ ip.all Char.isDigit ∧ fp.all Char.isDigit) :
    parseUnsigned s = some ((digitsToNat ip : ℚ) + (digitsToNat fp : ℚ) / 10 ^ fp.length) := by
  unfold parseUnsigned
  rw [h]
  exact if_pos hok

lemma parseUnsigned_int (s ip : List Char) (h : splitOnChar '.' s = [ip])
    (h1 : ip ≠ []) (h2 : ip.all Char.isDigit) :
    parseUnsigned s = some ((digitsToNat ip : ℚ)) := by
  unfold parseUnsigned
  rw [h]
  exact if_pos ⟨h1, h2⟩

/-! Frame lemmas: which `gps_data` fields each RMC update step can touch. -/

lemma rmcTime_frame (parts : List (List Char)) (g : GpsData) :
    (rmcTime parts g).latitude = g.latitude ∧ (rmcTime parts g).longitude = g.longitude ∧
    (rmcTime parts g).speed_knots = g.speed_knots ∧ (rmcTime parts g).speed_kmh = g.speed_kmh ∧
    (rmcTime parts g).course = g.course := by
  unfold rmcTime
  split <;> exact ⟨rfl, rfl, rfl, rfl, rfl⟩

lemma rmcStatus_frame (parts : List (List Char)) (g : GpsData) :
    (rmcStatus parts g).latitude = g.latitude ∧ (rmcStatus parts g).longitude = g.longitude ∧
    (rmcStatus parts g).speed_knots = g.speed_knots ∧
    (rmcStatus parts g).speed_kmh = g.speed_kmh ∧ (rmcStatus parts g).course = g.course :=
  ⟨rfl, rfl, rfl, rfl, rfl⟩

lemma rmcPos_inactive (parts : List (List Char)) (g : GpsData)
    (h : field parts 2 ≠ chars "A") : rmcPos parts g = some g := by
  unfold rmcPos
  rw [if_neg h]

lemma rmcSpeed_frame {parts : List (List Char)} {g g' : GpsData}
    (h : rmcSpeed parts g = some g') :
    g'.latitude = g.latitude ∧ g'.longitude = g.longitude ∧ g'.course = g.course := by
  unfold rmcSpeed at h
  split at h
  · cases hp : pfloat (field parts 7) with
    | none => rw [hp] at h; exact absurd h (by simp)
    | some q =>
      rw [hp] at h
      simp only [Option.some.injEq] at h
      subst h
      exact ⟨rfl, rfl, rfl⟩
  · simp only [Option.some.injEq] at h
    subst h
    exact ⟨rfl, rfl, rfl⟩

lemma rmcSpeed_value {parts : List (List Char)} {g g' : GpsData} {q : ℚ}
    (hne : field parts 7 ≠ []) (hp : pfloat (field parts 7) = some q)
    (h : rmcSpeed parts g = some g') :
    g'.speed_knots = q ∧ g'.speed_kmh = q * (1852 / 1000) := by
  unfold rmcSpeed at h
  rw [if_pos hne, hp] at h
  simp only [Option.some.injEq] at h
  subst h
  exact ⟨rfl, rfl⟩

lemma rmcSpeed_ne_none {parts : List (List Char)} {g : GpsData} {q : ℚ}
    (hne : field parts 7 ≠ []) (hp : pfloat (field parts 7) = some q) :
    rmcSpeed parts g ≠ none := by
  unfold rmcSpeed
  rw [if_pos hne, hp]
  simp

lemma rmcCourse_frame {parts : List (List Char)} {g g' : GpsData}
    (h : rmcCourse parts g = some g') :
    g'.latitude = g.latitude ∧ g'.longitude = g.longitude ∧
    g'.speed_knots = g.speed_knots ∧ g'.speed_kmh = g.speed_kmh := by
  unfold rmcCourse at h
  split at h
  · cases hp : pfloat (field parts 8) with
    | none => rw [hp] at h; exact absurd h (by simp)
    | some q =>
      rw [hp] at h
      simp only [Option.some.injEq] at h
      subst h
      exact ⟨rfl, rfl, rfl, rfl⟩
  · simp only [Option.some.injEq] at h
    subst h
    exact ⟨rfl, rfl, rfl, rfl⟩

lemma rmcDate_frame (parts : List (List Char)) (g : GpsData) :
    (rmcDate parts g).latitude = g.latitude ∧ (rmcDate parts g).longitude = g.longitude ∧
    (rmcDate parts g).speed_knots = g.speed_knots ∧ (rmcDate parts g).speed_kmh = g.speed_kmh ∧
    (rmcDate parts g).course = g.course := by
  unfold rmcDate
  split <;> exact ⟨rfl, rfl, rfl, rfl, rfl⟩

/-- After the position block has produced `some g2`, the rest of
`parse_rmc` (speed, course, date) never touches latitude or
longitude. -/
lemma parse_rmc_latlon {sentence : List Char} {g g2 : GpsData}
    (hlen : 12 ≤ (splitComma sentence).length)
    (hpos : rmcPos (splitComma sentence)
      (rmcStatus (splitComma sentence) (rmcTime (splitComma sentence) g)) = some g2) :
    (parse_rmc sentence g).latitude = g2.latitude ∧
    (parse_rmc sentence g).longitude = g2.longitude := by
  simp only [parse_rmc, if_pos hlen, hpos]
  cases hsp : rmcSpeed (splitComma sentence) g2 with
  | none => exact ⟨rfl, rfl⟩
  | some g3 =>
    dsimp only
    obtain ⟨l3, o3, _⟩ := rmcSpeed_frame hsp
    cases hco : rmcCourse (splitComma sentence) g3 with
    | none => exact ⟨l3, o3⟩
    | some g4 =>
      dsimp only
      obtain ⟨l4, o4, _, _⟩ := rmcCourse_frame hco
      obtain ⟨l5, o5, _, _, _⟩ := rmcDate_frame (splitComma sentence) g4
      exact ⟨l5.trans (l4.trans l3), o5.trans (o4.trans o3)⟩

/-- After the position block has produced `some g2` and the speed field
is a non-empty numeral, `parse_rmc` records the parsed speed in knots
and scaled by 1.852 in km/h. -/
lemma parse_rmc_speed {sentence : List Char} {g g2 : GpsData} {q : ℚ}
    (hlen : 12 ≤ (splitComma sentence).length)
    (hpos : rmcPos (splitComma sentence)
      (rmcStatus (splitComma sentence) (rmcTime (splitComma sentence) g)) = some g2)
    (hne : field (splitComma sentence) 7 ≠ [])
    (hq : pfloat (field (splitComma sentence) 7) = some q) :
    (parse_rmc sentence g).speed_knots = q ∧
    (parse_rmc sentence g).speed_kmh = q * (1852 / 1000) := by
  simp only [parse_rmc, if_pos hlen, hpos]
  have hsp : rmcSpeed (splitComma sentence) g2 =
      some { g2 with speed_knots := q, speed_kmh := q * (1852 / 1000) } := by
    unfold rmcSpeed
    rw [if_pos hne, hq]
  rw [hsp]
  dsimp only
  cases hco : rmcCourse (splitComma sentence)
      { g2 with speed_knots := q, speed_kmh := q * (1852 / 1000) } with
  | none => exact ⟨rfl, rfl⟩
  | some g4 =>
    dsimp only
    obtain ⟨_, _, s4, k4⟩ := rmcCourse_frame hco
    obtain ⟨_, _, s5, k5, _⟩ := rmcDate_frame (splitComma sentence) g4
    exact ⟨s5.trans s4, k5.trans k4⟩

lemma rmcPrefix_latlon (parts : List (List Char)) (g : GpsData) :
    (rmcStatus parts (rmcTime parts g)).latitude = g.latitude ∧
    (rmcStatus parts (rmcTime parts g)).longitude = g.longitude := by
  obtain ⟨lt, ot, _, _, _⟩ := rmcTime_frame parts g
  obtain ⟨ls, os, _, _, _⟩ := rmcStatus_frame parts (rmcTime parts g)
  exact ⟨ls.trans lt, os.trans ot⟩

/-- The speed step does not raise exactly when the speed field is
empty or a parsable numeral. -/
lemma rmcSpeed_total (parts : List (List Char)) (g : GpsData)
    (h : field parts 7 = [] ∨ ∃ q : ℚ, pfloat (field parts 7) = some q) :
    ∃ g', rmcSpeed parts g = some g' := by
  unfold rmcSpeed
  rcases h with h | ⟨q, hq⟩
  · exact ⟨g, by rw [if_neg (fun hne => hne h)]⟩
  · by_cases hne : field parts 7 ≠ []
    · exact ⟨_, by rw [if_pos hne, hq]⟩
    · exact ⟨g, by rw [if_neg hne]⟩

/-- After the position block produced `some g2` and the speed step
produced `some g3`, a non-empty numeric course field is recorded as the
course (the date step never touches it). -/
lemma parse_rmc_course {sentence : List Char} {g g2 g3 : GpsData} {cq : ℚ}
    (hlen : 12 ≤ (splitComma sentence).length)
    (hpos : rmcPos (splitComma sentence)
      (rmcStatus (splitComma sentence) (rmcTime (splitComma sentence) g)) = some g2)
    (hsp : rmcSpeed (splitComma sentence) g2 = some g3)
    (h8 : field (splitComma sentence) 8 ≠ [])
    (hc : pfloat (field (splitComma sentence) 8) = some cq) :
    (parse_rmc sentence g).course = cq := by
  simp only [parse_rmc, if_pos hlen, hpos]
  rw [hsp]
  dsimp only
  have hco : rmcCourse (splitComma sentence) g3 = some { g3 with course := cq } := by
    unfold rmcCourse
    rw [if_pos h8, hc]
  rw [hco]
  dsimp only
  exact (rmcDate_frame (splitComma sentence) { g3 with course := cq }).2.2.2.2

/-- C2, counterexample: ingesting the inactive-fix (`V`) RMC sentence
`$GPRMC,123519,V,4807.038,N,01131.000,E,022.4,084.4,230394,003.1,W*6A`
into the freshly initialised GPS record changes the speed and course
fields (0 → 22.4 knots, 0 → 84.4 degrees): `parse_rmc` updates speed
and course outside the `status == 'A'` guard, so they are not left
unchanged as the claim states. -/
theorem C2_counterexample :
    (parse_rmc rmcInactiveSentence (initGpsData 0)).speed_knots = 112 / 5 ∧
    (parse_rmc rmcInactiveSentence (initGpsData 0)).course = 422 / 5 ∧
    (initGpsData 0).speed_knots = 0 ∧ (initGpsData 0).course = 0 ∧
    (parse_rmc rmcInactiveSentence (initGpsData 0)).speed_knots ≠
      (initGpsData 0).speed_knots := by
  have hs : splitComma rmcInactiveSentence =
      [chars "$GPRMC", chars "123519", chars "V", chars "4807.038", chars "N",
       chars "01131.000", chars "E", chars "022.4", chars "084.4", chars "230394",
       chars "003.1", chars "W*6A"] := by decide
  have p5 : pfloat ['0', '2', '2', '.', '4'] = some (224 / 10) := by
    rw [pfloat_unsigned _ (by decide) (by decide),
      parseUnsigned_dec _ ['0', '2', '2'] ['4'] (by decide) (by decide)]
    rw [show digitsToNat ['0', '2', '2'] = 22 from by decide,
      show digitsToNat ['4'] = 4 from by decide]
    norm_num
  have p6 : pfloat ['0', '8', '4', '.', '4'] = some (844 / 10) := by
    rw [pfloat_unsigned _ (by decide) (by decide),
      parseUnsigned_dec _ ['0', '8', '4'] ['4'] (by decide) (by decide)]
    rw [show digitsToNat ['0', '8', '4'] = 84 from by decide,
      show digitsToNat ['4'] = 4 from by decide]
    norm_num
  simp only [parse_rmc, hs]
  norm_num [rmcTime, rmcStatus, rmcPos, rmcSpeed, rmcCourse, rmcDate, field, chars,
    initGpsData, p5, p6,
    show ¬(['0', '2', '2', '.', '4'] = ([] : List Char)) from by decide,
    show ¬(['0', '8', '4', '.', '4'] = ([] : List Char)) from by decide,
    show ¬('V' = 'A') from by decide]

/-- C2, amended: for every RMC sentence whose fix-validity field is not
`A`, ingestion leaves latitude and longitude unchanged; the speed
fields (knots, and km/h via the 1.852 factor) are updated whenever the
speed field is a non-empty numeral, and the course field is updated
whenever the course field is a non-empty numeral and the speed field
did not abort the parse (it is empty or a numeral) — all regardless of
fix validity. -/
theorem C2_amended_inactive_rmc (sentence : List Char) (g : GpsData)
    (hA : field (splitComma sentence) 2 ≠ chars "A") :
    ((parse_rmc sentence g).latitude = g.latitude ∧
     (parse_rmc sentence g).longitude = g.longitude) ∧
    (∀ q : ℚ, 12 ≤ (splitComma sentence).length →
      field (splitComma sentence) 7 ≠ [] →
      pfloat (field (splitComma sentence) 7) = some q →
      (parse_rmc sentence g).speed_knots = q ∧
      (parse_rmc sentence g).speed_kmh = q * (1852 / 1000)) ∧
    (∀ cq : ℚ, 12 ≤ (splitComma sentence).length →
      (field (splitComma sentence) 7 = [] ∨
        ∃ q : ℚ, pfloat (field (splitComma sentence) 7) = some q) →
      field (splitComma sentence) 8 ≠ [] →
      pfloat (field (splitComma sentence) 8) = some cq →
      (parse_rmc sentence g).course = cq) := by
  by_cases hlen : 12 ≤ (splitComma sentence).length
  · have hpos := rmcPos_inactive (splitComma sentence)
      (rmcStatus (splitComma sentence) (rmcTime (splitComma sentence) g)) hA
    obtain ⟨hl, ho⟩ := parse_rmc_latlon hlen hpos
    obtain ⟨hl0, ho0⟩ := rmcPrefix_latlon (splitComma sentence) g
    refine ⟨⟨hl.trans hl0, ho.trans ho0⟩, ?_, ?_⟩
    · intro q _ hne hq
      exact parse_rmc_speed hlen hpos hne hq
    · intro cq _ hsp7 h8 hc
      obtain ⟨g3, hsp⟩ := rmcSpeed_total (splitComma sentence) _ hsp7
      exact parse_rmc_course hlen hpos hsp h8 hc
  · have : parse_rmc sentence g = g := by
      simp only [parse_rmc, if_neg hlen]
    rw [this]
    exact ⟨⟨rfl, rfl⟩, fun q h12 _ _ => absurd h12 hlen,
      fun cq h12 _ _ _ => absurd h12 hlen⟩

/-- C2 amended, witness: the inactive sentence of the counterexample
instantiates the amended statement; latitude/longitude stay 0 while the
non-empty speed and course fields force the documented updates. -/
theorem C2_amended_witness :
    (parse_rmc rmcInactiveSentence (initGpsData 0)).latitude = (initGpsData 0).latitude ∧
    (parse_rmc rmcInactiveSentence (initGpsData 0)).speed_knots = 224 / 10 ∧
    (parse_rmc rmcInactiveSentence (initGpsData 0)).course = 844 / 10 := by
  have p5 : pfloat (field (splitComma rmcInactiveSentence) 7) = some (224 / 10) := by
    rw [show field (splitComma rmcInactiveSentence) 7 = ['0', '2', '2', '.', '4'] from by decide]
    rw [pfloat_unsigned _ (by decide) (by decide),
      parseUnsigned_dec _ ['0', '2', '2'] ['4'] (by decide) (by decide)]
    rw [show digitsToNat ['0', '2', '2'] = 22 from by decide,
      show digitsToNat ['4'] = 4 from by decide]
    norm_num
  have p6 : pfloat (field (splitComma rmcInactiveSentence) 8) = some (844 / 10) := by
    rw [show field (splitComma rmcInactiveSentence) 8 = ['0', '8', '4', '.', '4'] from by decide]
    rw [pfloat_unsigned _ (by decide) (by decide),
      parseUnsigned_dec _ ['0', '8', '4'] ['4'] (by decide) (by decide)]
    rw [show digitsToNat ['0', '8', '4'] = 84 from by decide,
      show digitsToNat ['4'] = 4 from by decide]
    norm_num
  have h := C2_amended_inactive_rmc rmcInactiveSentence (initGpsData 0) (by decide)
  exact ⟨h.1.1, (h.2.1 (224 / 10) (by decide) (by decide) p5).1,
    h.2.2 (844 / 10) (by decide) (Or.inr ⟨224 / 10, p5⟩) (by decide) p6⟩

/-- C9: for every active-fix RMC sentence whose packed coordinate
fields parse, the recorded latitude and longitude are
degrees + minutes/60, negated for the `S` and `W` hemisphere letters;
in particular the sentence carrying `4807.038,N` and `01131.000,W`
yields 48.1173 and -11.516667 decimal degrees within 1e-4. -/
theorem C9_coordinate_conversion :
    (∀ (sentence : List Char) (g : GpsData) (d m dd mm : ℚ),
      12 ≤ (splitComma sentence).length →
      field (splitComma sentence) 2 = chars "A" →
      field (splitComma sentence) 3 ≠ [] →
      field (splitComma sentence) 5 ≠ [] →
      pfloat ((field (splitComma sentence) 3).take 2) = some d →
      pfloat ((field (splitComma sentence) 3).drop 2) = some m →
      pfloat ((field (splitComma sentence) 5).take 3) = some dd →
      pfloat ((field (splitComma sentence) 5).drop 3) = some mm →
      (parse_rmc sentence g).latitude =
        (if field (splitComma sentence) 4 = chars "S" then -(d + m / 60) else d + m / 60) ∧
      (parse_rmc sentence g).longitude =
        (if field (splitComma sentence) 6 = chars "W" then -(dd + mm / 60) else dd + mm / 60)) ∧
    |(parse_rmc rmcActiveSentence (initGpsData 0)).latitude - 481173 / 10000| < 1 / 10000 ∧
    |(parse_rmc rmcActiveSentence (initGpsData 0)).longitude + 11516667 / 1000000| < 1 / 10000 := by
  have main : ∀ (sentence : List Char) (g : GpsData) (d m dd mm : ℚ),
      12 ≤ (splitComma sentence).length →
      field (splitComma sentence) 2 = chars "A" →
      field (splitComma sentence) 3 ≠ [] →
      field (splitComma sentence) 5 ≠ [] →
      pfloat ((field (splitComma sentence) 3).take 2) = some d →
      pfloat ((field (splitComma sentence) 3).drop 2) = some m →
      pfloat ((field (splitComma sentence) 5).take 3) = some dd →
      pfloat ((field (splitComma sentence) 5).drop 3) = some mm →
      (parse_rmc sentence g).latitude =
        (if field (splitComma sentence) 4 = chars "S" then -(d + m / 60) else d + m / 60) ∧
      (parse_rmc sentence g).longitude =
        (if field (splitComma sentence) 6 = chars "W" then -(dd + mm / 60) else dd + mm / 60) := by
    intro sentence g d m dd mm hlen hA h3 h5 hd hm hdd hmm
    have hpos : rmcPos (splitComma sentence)
        (rmcStatus (splitComma sentence) (rmcTime (splitComma sentence) g)) =
        some { rmcStatus (splitComma sentence) (rmcTime (splitComma sentence) g) with
          latitude :=
            if field (splitComma sentence) 4 = chars "S" then -(d + m / 60) else d + m / 60,
          longitude :=
            if field (splitComma sentence) 6 = chars "W" then -(dd + mm / 60) else dd + mm / 60 } := by
      simp only [rmcPos]
      rw [if_pos hA, if_pos ⟨h3, h5⟩, hd, hm, hdd, hmm]
    obtain ⟨hl, ho⟩ := parse_rmc_latlon hlen hpos
    exact ⟨hl, ho⟩
  refine ⟨main, ?_⟩
  have hd : pfloat ((field (splitComma rmcActiveSentence) 3).take 2) = some 48 := by
    rw [show (field (splitComma rmcActiveSentence) 3).take 2 = ['4', '8'] from by decide]
    rw [pfloat_unsigned _ (by decide) (by decide),
      parseUnsigned_int _ ['4', '8'] (by decide) (by decide) (by decide)]
    norm_num [show digitsToNat ['4', '8'] = 48 from by decide]
  have hm : pfloat ((field (splitComma rmcActiveSentence) 3).drop 2) = some (7038 / 1000) := by
    rw [show (field (splitComma rmcActiveSentence) 3).drop 2 =
      ['0', '7', '.', '0', '3', '8'] from by decide]
    rw [pfloat_unsigned _ (by decide) (by decide),
      parseUnsigned_dec _ ['0', '7'] ['0', '3', '8'] (by decide) (by decide)]
    rw [show digitsToNat ['0', '7'] = 7 from by decide,
      show digitsToNat ['0', '3', '8'] = 38 from by decide]
    norm_num
  have hdd : pfloat ((field (splitComma rmcActiveSentence) 5).take 3) = some 11 := by
    rw [show (field (splitComma rmcActiveSentence) 5).take 3 = ['0', '1', '1'] from by decide]
    rw [pfloat_unsigned _ (by decide) (by decide),
      parseUnsigned_int _ ['0', '1', '1'] (by decide) (by decide) (by decide)]
    norm_num [show digitsToNat ['0', '1', '1'] = 11 from by decide]
  have hmm : pfloat ((field (splitComma rmcActiveSentence) 5).drop 3) = some 31 := by
    rw [show (field (splitComma rmcActiveSentence) 5).drop 3 =
      ['3', '1', '.', '0', '0', '0'] from by decide]
    rw [pfloat_unsigned _ (by decide) (by decide),
      parseUnsigned_dec _ ['3', '1'] ['0', '0', '0'] (by decide) (by decide)]
    rw [show digitsToNat ['3', '1'] = 31 from by decide,
      show digitsToNat ['0', '0', '0'] = 0 from by decide]
    norm_num
  obtain ⟨hl, ho⟩ := main rmcActiveSentence (initGpsData 0) 48 (7038 / 1000) 11 31
    (by decide) (by decide) (by decide) (by decide) hd hm hdd hmm
  rw [hl, ho]
  rw [if_neg (show ¬(field (splitComma rmcActiveSentence) 4 = chars "S") from by decide),
    if_pos (show field (splitComma rmcActiveSentence) 6 = chars "W" from by decide)]
  norm_num [abs_lt]

/-- C9, witness: the general conversion rule applied at the concrete
test sentence gives the exact converted coordinates. -/
theorem C9_witness :
    (parse_rmc rmcActiveSentence (initGpsData 0)).latitude = 481173 / 10000 ∧
    (parse_rmc rmcActiveSentence (initGpsData 0)).longitude = -(691 / 60) := by
  have hd : pfloat ((field (splitComma rmcActiveSentence) 3).take 2) = some 48 := by
    rw [show (field (splitComma rmcActiveSentence) 3).take 2 = ['4', '8'] from by decide]
    rw [pfloat_unsigned _ (by decide) (by decide),
      parseUnsigned_int _ ['4', '8'] (by decide) (by decide) (by decide)]
    norm_num [show digitsToNat ['4', '8'] = 48 from by decide]
  have hm : pfloat ((field (splitComma rmcActiveSentence) 3).drop 2) = some (7038 / 1000) := by
    rw [show (field (splitComma rmcActiveSentence) 3).drop 2 =
      ['0', '7', '.', '0', '3', '8'] from by decide]
    rw [pfloat_unsigned _ (by decide) (by decide),
      parseUnsigned_dec _ ['0', '7'] ['0', '3', '8'] (by decide) (by decide)]
    rw [show digitsToNat ['0', '7'] = 7 from by decide,
      show digitsToNat ['0', '3', '8'] = 38 from by decide]
    norm_num
  have hdd : pfloat ((field (splitComma rmcActiveSentence) 5).take 3) = some 11 := by
    rw [show (field (splitComma rmcActiveSentence) 5).take 3 = ['0', '1', '1'] from by decide]
    rw [pfloat_unsigned _ (by decide) (by decide),
      parseUnsigned_int _ ['0', '1', '1'] (by decide) (by decide) (by decide)]
    norm_num [show digitsToNat ['0', '1', '1'] = 11 from by decide]
  have hmm : pfloat ((field (splitComma rmcActiveSentence) 5).drop 3) = some 31 := by
    rw [show (field (splitComma rmcActiveSentence) 5).drop 3 =
      ['3', '1', '.', '0', '0', '0'] from by decide]
    rw [pfloat_unsigned _ (by decide) (by decide),
      parseUnsigned_dec _ ['3', '1'] ['0', '0', '0'] (by decide) (by decide)]
    rw [show digitsToNat ['3', '1'] = 31 from by decide,
      show digitsToNat ['0', '0', '0'] = 0 from by decide]
    norm_num
  obtain ⟨hl, ho⟩ := C9_coordinate_conversion.1 rmcActiveSentence (initGpsData 0)
    48 (7038 / 1000) 11 31 (by decide) (by decide) (by decide) (by decide) hd hm hdd hmm
  rw [hl, ho]
  rw [if_neg (show ¬(field (splitComma rmcActiveSentence) 4 = chars "S") from by decide),
    if_pos (show field (splitComma rmcActiveSentence) 6 = chars "W" from by decide)]
  norm_num

/-- C10: a framed NMEA line (starts with `$`, contains `*`) that
matches none of the four recognized sentence kinds still refreshes the
data-freshness timestamp and the last-update clock while leaving every
other field of the GPS record unchanged, so the staleness age resets on
any framed traffic. -/
theorem C10_unrecognized_framed_line (now t : ℚ) (nowStr line : List Char) (g : GpsData)
    (hne : line ≠ []) (hdollar : (chars "$").isPrefixOf line = true)
    (hstar : line.contains '*' = true)
    (hrmc : containsSub (chars "RMC") line = false)
    (hgga : containsSub (chars "GGA") line = false)
    (hgsa : containsSub (chars "GSA") line = false)
    (hgsv : containsSub (chars "GSV") line = false) :
    continuousReadStep now nowStr line g =
      { g with data_timestamp := now, last_update := nowStr } ∧
    getDataAge t (continuousReadStep now nowStr line g) = t - now := by
  have hstep : continuousReadStep now nowStr line g =
      { g with data_timestamp := now, last_update := nowStr } := by
    unfold continuousReadStep
    rw [if_pos ⟨hne, hdollar, hstar⟩]
    unfold parseNmeaLine
    rw [hrmc, hgga, hgsa, hgsv]
    simp
  refine ⟨hstep, ?_⟩
  rw [hstep]
  rfl

/-! Lemmas about the offline replay loop. -/

lemma offlineRetry_attempt0 (oracle : List Char → ℕ → NetOutcome) (name : List Char) :
    Evt.attempted name 0 ∈ (offlineRetry oracle name 0 (max_retries + 1)).1 := by
  cases h : oracle name 0 <;> simp [offlineRetry, h, max_retries]

lemma processFile_good_attempt0 (oracle : List Char → ℕ → NetOutcome)
    (ren : List Char → Bool) (f : QFile)
    (hsz : f.size ≠ 0) (hdata : f.data = .good) :
    Evt.attempted f.name 0 ∈ (processFile oracle ren f).1 := by
  simp only [processFile, if_neg hsz, hdata]
  exact offlineRetry_attempt0 oracle f.name

lemma replayFiles_attempted (oracle : List Char → ℕ → NetOutcome) (ren : List Char → Bool) :
    ∀ (l : List QFile) (f : QFile), f ∈ l → f.size ≠ 0 → f.data = .good →
      Evt.attempted f.name 0 ∈ (replayFiles oracle ren l).1 := by
  intro l
  induction l with
  | nil => intro f hf; cases hf
  | cons g gs ih =>
    intro f hf hsz hdata
    rcases List.mem_cons.mp hf with rfl | hf'
    · exact List.mem_append_left _ (processFile_good_attempt0 oracle ren f hsz hdata)
    · exact List.mem_append_right _ (ih f hf' hsz hdata)

lemma insertByName_perm (f : QFile) (l : List QFile) : (insertByName f l).Perm (f :: l) := by
  induction l with
  | nil => exact List.Perm.refl _
  | cons g gs ih =>
    unfold insertByName
    split
    · exact List.Perm.refl _
    · exact (List.Perm.cons g ih).trans (List.Perm.swap f g gs)

lemma sortByName_perm (l : List QFile) : (sortByName l).Perm l := by
  induction l with
  | nil => exact List.Perm.refl _
  | cons f fs ih =>
    exact (insertByName_perm f (sortByName fs)).trans (List.Perm.cons f ih)

/-- C1, counterexample: with `a.json` failing every attempt and
`b.json` succeeding, one replay cycle exhausts `a.json`'s retries and
then still attempts — and delivers — the later-named `b.json` in that
same cycle, leaving `a.json` queued: the loop does `continue`, not a
stop, on exhausted retries, so a later batch overtakes the earlier
failing one. -/
theorem C1_counterexample :
    (replayCycle oracleAFailsBOk renameAlwaysOk [fileA, fileB]).1 =
      [.attempted fileA.name 0, .attempted fileA.name 1, .attempted fileA.name 2,
       .attempted fileB.name 0, .uploaded fileB.name] ∧
    (replayCycle oracleAFailsBOk renameAlwaysOk [fileA, fileB]).2 = [fileA] ∧
    Evt.attempted fileB.name 0 ∈ (replayCycle oracleAFailsBOk renameAlwaysOk [fileA, fileB]).1 ∧
    Evt.uploaded fileB.name ∈ (replayCycle oracleAFailsBOk renameAlwaysOk [fileA, fileB]).1 := by
  decide

/-- C1, amended: on exhausted retries for one file the replay cycle
logs, skips that file (leaving it queued for the next cycle) and
continues with the next file: every well-formed queued file receives
its first upload attempt in every cycle, regardless of any earlier
file's failures. -/
theorem C1_amended_replay_continues (oracle : List Char → ℕ → NetOutcome)
    (ren : List Char → Bool) (files : List QFile) (f : QFile)
    (hf : f ∈ files) (hsz : f.size ≠ 0) (hdata : f.data = .good) :
    Evt.attempted f.name 0 ∈ (replayCycle oracle ren files).1 := by
  unfold replayCycle
  exact replayFiles_attempted oracle ren (sortByName files) f
    ((sortByName_perm files).mem_iff.mpr hf) hsz hdata

/-- C1 amended, witness: with every attempt failing, the cycle still
attempts the later-named `b.json` after exhausting `a.json`. -/
theorem C1_amended_witness :
    Evt.attempted fileB.name 0 ∈
      (replayCycle oracleAllConnFail renameAlwaysOk [fileA, fileB]).1 :=
  C1_amended_replay_continues oracleAllConnFail renameAlwaysOk [fileA, fileB] fileB
    (by decide) (by decide) (by decide)

lemma offlineRetry_names (oracle : List Char → ℕ → NetOutcome) (name : List Char) :
    ∀ (fuel attempt : ℕ) (e : Evt), e ∈ (offlineRetry oracle name attempt fuel).1 →
      evtName e = name := by
  intro fuel
  induction fuel with
  | zero => intro attempt e he; simp [offlineRetry] at he
  | succ n ih =>
    intro attempt e he
    cases h : oracle name attempt
    case created =>
      simp [offlineRetry, h] at he
      rcases he with rfl | rfl <;> rfl
    case httpErr | connErr | timeoutErr =>
      rcases Nat.lt_or_ge attempt max_retries with hc | hc
      · simp [offlineRetry, h, hc] at he
        rcases he with rfl | he'
        · rfl
        · exact ih (attempt + 1) e he'
      · simp [offlineRetry, h, Nat.not_lt.mpr hc] at he
        subst he
        rfl
    case netErr | otherExc =>
      simp [offlineRetry, h] at he
      subst he
      rfl

lemma processFile_names (oracle : List Char → ℕ → NetOutcome) (ren : List Char → Bool)
    (f : QFile) :
    ∀ e ∈ (processFile oracle ren f).1, evtName e = f.name := by
  intro e he
  unfold processFile at he
  split at he
  · simp at he; subst he; rfl
  · split at he
    · split at he
      · simp at he; subst he; rfl
      · simp at he; subst he; rfl
    · simp at he; subst he; rfl
    · simp only at he
      exact offlineRetry_names oracle f.name (max_retries + 1) 0 e he

/-- The badJson branch of the per-file processing: quarantine rename
when the filesystem move succeeds, `os.remove` without a move when it
fails (src/upload.py lines 208-224); either way the file leaves the
queue. -/
lemma processFile_badJson (oracle : List Char → ℕ → NetOutcome) (ren : List Char → Bool)
    (f : QFile) (hsz : f.size ≠ 0) (hdata : f.data = .badJson) :
    processFile oracle ren f =
      ([if ren f.name then Evt.moved f.name else Evt.deleted f.name], false) := by
  unfold processFile
  rw [if_neg hsz, hdata]
  dsimp only
  split <;> rfl

lemma replayFiles_event_names (oracle : List Char → ℕ → NetOutcome) (ren : List Char → Bool) :
    ∀ (l : List QFile) (e : Evt), e ∈ (replayFiles oracle ren l).1 →
      evtName e ∈ l.map QFile.name := by
  intro l
  induction l with
  | nil => intro e he; simp [replayFiles] at he
  | cons g gs ih =>
    intro e he
    simp only [replayFiles, List.mem_append] at he
    rcases he with he | he
    · exact List.mem_map.mpr ⟨g, List.mem_cons_self g gs,
        (processFile_names oracle ren g e he).symm⟩
    · exact List.mem_cons.mpr (Or.inr (by simpa using ih e he))

lemma replayFiles_kept_mem (oracle : List Char → ℕ → NetOutcome) (ren : List Char → Bool) :
    ∀ (l : List QFile) (g : QFile), g ∈ (replayFiles oracle ren l).2 → g ∈ l := by
  intro l
  induction l with
  | nil => intro g hg; simp [replayFiles] at hg
  | cons p ps ih =>
    intro g hg
    simp only [replayFiles, List.mem_append] at hg
    rcases hg with hg | hg
    · split at hg
      · simp at hg; simp [hg]
      · simp at hg
    · exact List.mem_cons.mpr (Or.inr (ih g hg))

lemma replayFiles_badJson (oracle : List Char → ℕ → NetOutcome) (ren : List Char → Bool) :
    ∀ (l : List QFile) (f : QFile), f ∈ l → (l.map QFile.name).Nodup →
      f.size ≠ 0 → f.data = .badJson →
      (ren f.name = true →
        (replayFiles oracle ren l).1.count (Evt.moved f.name) = 1 ∧
        Evt.deleted f.name ∉ (replayFiles oracle ren l).1) ∧
      (ren f.name = false →
        (replayFiles oracle ren l).1.count (Evt.deleted f.name) = 1 ∧
        Evt.moved f.name ∉ (replayFiles oracle ren l).1) ∧
      (∀ k, Evt.attempted f.name k ∉ (replayFiles oracle ren l).1) ∧
      f.name ∉ (replayFiles oracle ren l).2.map QFile.name := by
  intro l
  induction l with
  | nil => intro f hf; cases hf
  | cons g gs ih =>
    intro f hf hnd hsz hdata
    rw [List.map_cons, List.nodup_cons] at hnd
    obtain ⟨hg_notin, hnd'⟩ := hnd
    rcases List.mem_cons.mp hf with rfl | hf'
    · -- the corrupted file is the head of the listing
      have hrest_free : ∀ e ∈ (replayFiles oracle ren gs).1, evtName e ≠ f.name := by
        intro e he heq
        exact hg_notin (heq ▸ replayFiles_event_names oracle ren gs e he)
      have hkept_free : f.name ∉ (replayFiles oracle ren gs).2.map QFile.name := by
        intro hmem
        obtain ⟨p, hp, hpn⟩ := List.mem_map.mp hmem
        exact hg_notin (hpn ▸ List.mem_map_of_mem QFile.name
          (replayFiles_kept_mem oracle ren gs p hp))
      have hmoved0 : (replayFiles oracle ren gs).1.count (Evt.moved f.name) = 0 :=
        List.count_eq_zero.mpr (fun hmem => hrest_free _ hmem rfl)
      have hdel0 : (replayFiles oracle ren gs).1.count (Evt.deleted f.name) = 0 :=
        List.count_eq_zero.mpr (fun hmem => hrest_free _ hmem rfl)
      refine ⟨?_, ?_, ?_, ?_⟩
      · intro hren
        constructor
        · simp [replayFiles, processFile_badJson oracle ren f hsz hdata, hren,
            List.count_append, hmoved0]
        · intro hmem
          simp [replayFiles, processFile_badJson oracle ren f hsz hdata, hren] at hmem
          exact hrest_free _ hmem rfl
      · intro hren
        constructor
        · simp [replayFiles, processFile_badJson oracle ren f hsz hdata, hren,
            List.count_append, hdel0]
        · intro hmem
          simp [replayFiles, processFile_badJson oracle ren f hsz hdata, hren] at hmem
          exact hrest_free _ hmem rfl
      · intro k hmem
        simp only [replayFiles, processFile_badJson oracle ren f hsz hdata,
          List.mem_append] at hmem
        rcases hmem with hmem | hmem
        · rcases List.mem_singleton.mp hmem with h
          split at h <;> cases h
        · exact hrest_free _ hmem rfl
      · simpa [replayFiles, processFile_badJson oracle ren f hsz hdata] using hkept_free
    · -- the corrupted file sits in the tail
      have hne_name : g.name ≠ f.name :=
        fun h => hg_notin (h ▸ List.mem_map_of_mem QFile.name hf')
      have hhead_free : ∀ e ∈ (processFile oracle ren g).1, evtName e ≠ f.name := by
        intro e he heq
        exact hne_name ((processFile_names oracle ren g e he).symm.trans heq)
      have hheadm : (processFile oracle ren g).1.count (Evt.moved f.name) = 0 :=
        List.count_eq_zero.mpr (fun hmem => hhead_free _ hmem rfl)
      have hheadd : (processFile oracle ren g).1.count (Evt.deleted f.name) = 0 :=
        List.count_eq_zero.mpr (fun hmem => hhead_free _ hmem rfl)
      obtain ⟨ihm, ihd, iha, ihk⟩ := ih f hf' hnd' hsz hdata
      refine ⟨?_, ?_, ?_, ?_⟩
      · intro hren
        obtain ⟨ihc, ihdel⟩ := ihm hren
        constructor
        · simp only [replayFiles, List.count_append]
          simp [hheadm, ihc]
        · intro hmem
          simp only [replayFiles, List.mem_append] at hmem
          rcases hmem with hmem | hmem
          · exact hhead_free _ hmem rfl
          · exact ihdel hmem
      · intro hren
        obtain ⟨ihc, ihmv⟩ := ihd hren
        constructor
        · simp only [replayFiles, List.count_append]
          simp [hheadd, ihc]
        · intro hmem
          simp only [replayFiles, List.mem_append] at hmem
          rcases hmem with hmem | hmem
          · exact hhead_free _ hmem rfl
          · exact ihmv hmem
      · intro k hmem
        simp only [replayFiles, List.mem_append] at hmem
        rcases hmem with hmem | hmem
        · exact hhead_free _ hmem rfl
        · exact iha k hmem
      · intro hmem
        simp only [replayFiles, List.map_append, List.mem_append] at hmem
        rcases hmem with hmem | hmem
        · split at hmem
          · simp at hmem; exact hne_name hmem.symm
          · simp at hmem
        · exact ihk hmem

/-- C4, counterexample: when the quarantine rename fails, the code at
src/upload.py lines 219-224 deletes the corrupt file without moving it
aside: the cycle emits a `deleted` event for `bad.json` and never a
`moved` one, so the file is neither moved to quarantine exactly once
nor spared deletion-without-move as the claim states. -/
theorem C4_counterexample :
    (replayCycle oracleAllConnFail renameAlwaysFail [badFile]).1 =
      [Evt.deleted badFile.name] ∧
    Evt.deleted badFile.name ∈ (replayCycle oracleAllConnFail renameAlwaysFail [badFile]).1 ∧
    Evt.moved badFile.name ∉ (replayCycle oracleAllConnFail renameAlwaysFail [badFile]).1 ∧
    (replayCycle oracleAllConnFail renameAlwaysFail [badFile]).1.count
      (Evt.moved badFile.name) = 0 := by
  decide

/-- C4, amended: a corrupt (invalid-JSON) durable file is never
attempted for upload and leaves the active queue in the very cycle
that observes it, so no later cycle (whose queue no longer carries its
name) emits any event for it; when the quarantine rename succeeds the
file is moved to `problematic/` exactly once and not deleted, but when
the rename fails the code falls back to deleting it without moving it
aside.  Filenames are unique within the queue directory. -/
theorem C4_amended_quarantine_or_delete (oracle oracle2 : List Char → ℕ → NetOutcome)
    (ren ren2 : List Char → Bool) (files files2 : List QFile) (f : QFile)
    (hf : f ∈ files) (hnd : (files.map QFile.name).Nodup)
    (hsz : f.size ≠ 0) (hdata : f.data = .badJson) :
    ((ren f.name = true →
        (replayCycle oracle ren files).1.count (Evt.moved f.name) = 1 ∧
        Evt.deleted f.name ∉ (replayCycle oracle ren files).1) ∧
     (ren f.name = false →
        (replayCycle oracle ren files).1.count (Evt.deleted f.name) = 1 ∧
        Evt.moved f.name ∉ (replayCycle oracle ren files).1) ∧
     (∀ k, Evt.attempted f.name k ∉ (replayCycle oracle ren files).1) ∧
     f.name ∉ (replayCycle oracle ren files).2.map QFile.name) ∧
    (f.name ∉ files2.map QFile.name →
      ∀ e ∈ (replayCycle oracle2 ren2 files2).1, evtName e ≠ f.name) := by
  constructor
  · exact replayFiles_badJson oracle ren (sortByName files) f
      ((sortByName_perm files).mem_iff.mpr hf)
      ((((sortByName_perm files).map QFile.name).nodup_iff).mpr hnd) hsz hdata
  · intro h2 e he heq
    exact h2 (heq ▸ (((sortByName_perm files2).map QFile.name).mem_iff).mp
      (replayFiles_event_names oracle2 ren2 (sortByName files2) e he))

/-- C4 amended, witness: a two-file queue with a corrupted `bad.json`
and a succeeding rename; the remaining queue `[fileA]` no longer
carries its name. -/
theorem C4_witness :
    ((renameAlwaysOk badFile.name = true →
        (replayCycle oracleAllConnFail renameAlwaysOk [badFile, fileA]).1.count
          (Evt.moved badFile.name) = 1 ∧
        Evt.deleted badFile.name ∉
          (replayCycle oracleAllConnFail renameAlwaysOk [badFile, fileA]).1) ∧
     (renameAlwaysOk badFile.name = false →
        (replayCycle oracleAllConnFail renameAlwaysOk [badFile, fileA]).1.count
          (Evt.deleted badFile.name) = 1 ∧
        Evt.moved badFile.name ∉
          (replayCycle oracleAllConnFail renameAlwaysOk [badFile, fileA]).1) ∧
     (∀ k, Evt.attempted badFile.name k ∉
        (replayCycle oracleAllConnFail renameAlwaysOk [badFile, fileA]).1) ∧
     badFile.name ∉
       (replayCycle oracleAllConnFail renameAlwaysOk [badFile, fileA]).2.map QFile.name) ∧
    (badFile.name ∉ [fileA].map QFile.name →
      ∀ e ∈ (replayCycle oracleAllConnFail renameAlwaysOk [fileA]).1,
        evtName e ≠ badFile.name) :=
  C4_amended_quarantine_or_delete oracleAllConnFail oracleAllConnFail
    renameAlwaysOk renameAlwaysOk [badFile, fileA] [fileA]
    badFile (by decide) (by decide) (by decide) (by decide)


/-- C3: when the batch is non-empty and every POST attempt fails with a
retryable transport error (connection error or timeout), `upload_json`
performs all `max_retries + 1` attempts with exponential backoff
(sleeps `2^0` then `2^1` seconds), persists the batch to disk exactly
once, and returns an error dictionary (the embedding is a total
function: no exception crosses the submit boundary). -/
theorem C3_transport_failure_persists (payload : List ℕ) (oracle : ℕ → NetOutcome)
    (hne : payload ≠ [])
    (hfail : ∀ i, i ≤ max_retries → oracle i = .connErr ∨ oracle i = .timeoutErr) :
    (upload_json payload oracle).result = .err ∧
    (upload_json payload oracle).attempts = max_retries + 1 ∧
    (upload_json payload oracle).saved = 1 ∧
    (upload_json payload oracle).backoffs = [2 ^ 0, 2 ^ 1] := by
  have hne' : payload.isEmpty = false := by
    cases payload with
    | nil => exact absurd rfl hne
    | cons a l => rfl
  rcases hfail 0 (by decide) with h0 | h0 <;>
    rcases hfail 1 (by decide) with h1 | h1 <;>
      rcases hfail 2 (by decide) with h2 | h2 <;>
        simp [upload_json, uploadJsonGo, h0, h1, h2, max_retries, hne']

/-- C3, witness: a singleton batch with every attempt hitting a
connection error. -/
theorem C3_witness :
    (upload_json [7] (fun _ => .connErr)).result = .err ∧
    (upload_json [7] (fun _ => .connErr)).attempts = max_retries + 1 ∧
    (upload_json [7] (fun _ => .connErr)).saved = 1 ∧
    (upload_json [7] (fun _ => .connErr)).backoffs = [2 ^ 0, 2 ^ 1] :=
  C3_transport_failure_persists [7] (fun _ => .connErr) (by decide)
    (fun _ _ => Or.inl rfl)

/-- C5, counterexample: with the stop event never set, a sensor-read
exception on the first cycle makes the V4 producer loop `break`: only
one cycle runs, the buffer stays empty, and the thread exits.  The
claim instead predicts that only that one sample is lost and the loop
proceeds, which here would give two cycles and buffer `[7]` from the
second cycle. -/
theorem C5_counterexample :
    updateImuLoop imuOracleFailFirst (fun _ => false) 0 2 = ([], 1, true) ∧
    (updateImuLoop imuOracleFailFirst (fun _ => false) 0 2).2.1 ≠ 2 ∧
    (updateImuLoop imuOracleFailFirst (fun _ => false) 0 2).1 ≠ [7] := by
  decide

/-- C5, amended: a heading-computation failure is caught inside
`update_tilt_compensated_heading` and the cycle still appends its
sample, but a sensor-read exception is logged and `break`s the
producer loop: the loop runs exactly the cycles before the failure
plus the failing one, keeps only the earlier samples, and exits (the
session-level health check is then responsible for restarting the
thread). -/
theorem C5_read_failure_kills_loop (oracle : ℕ → ImuCycle) (stop : ℕ → Bool)
    (k i fuel : ℕ) (hstop : ∀ j, stop j = false) (hfuel : i < fuel)
    (hpre : ∀ j, j < i → oracle (k + j) ≠ .readFail)
    (hfail : oracle (k + i) = .readFail) :
    updateImuLoop oracle stop k fuel =
      ((List.range i).filterMap (fun j => sampleOf (oracle (k + j))), i + 1, true) := by
  induction i generalizing k fuel with
  | zero =>
    cases fuel with
    | zero => omega
    | succ n =>
      rw [Nat.add_zero] at hfail
      simp [updateImuLoop, hstop k, hfail]
  | succ i ih =>
    cases fuel with
    | zero => omega
    | succ n =>
      have h0 : oracle k ≠ .readFail := by
        have := hpre 0 (Nat.succ_pos i)
        simpa using this
      have hr := ih (k + 1) n (by omega)
        (fun j hj => by
          have := hpre (j + 1) (by omega)
          rwa [show k + (j + 1) = k + 1 + j from by omega] at this)
        (by rwa [show k + 1 + i = k + (i + 1) from by omega])
      have hshift : (List.range (i + 1)).filterMap (fun j => sampleOf (oracle (k + j))) =
          (sampleOf (oracle k)).toList ++
            (List.range i).filterMap (fun j => sampleOf (oracle (k + 1 + j))) := by
        rw [List.range_succ_eq_map, List.filterMap_cons, List.filterMap_map]
        have harg : (fun j => sampleOf (oracle (k + j))) ∘ Nat.succ =
            fun j => sampleOf (oracle (k + 1 + j)) := by
          funext j
          simp only [Function.comp]
          rw [show k + Nat.succ j = k + 1 + j from by omega]
        rw [Nat.add_zero, harg]
        cases sampleOf (oracle k) <;> rfl
      cases hk : oracle k with
      | readFail => exact absurd hk h0
      | ok s =>
        rw [hshift, hk]
        simp [updateImuLoop, hstop k, hk, hr, sampleOf]
      | headingFail s =>
        rw [hshift, hk]
        simp [updateImuLoop, hstop k, hk, hr, sampleOf]

/-- C5 amended, witness: one good cycle (sample 5), then a read
failure: the loop keeps `[5]`, has entered two cycles, and exited
through the exception branch. -/
theorem C5_witness :
    updateImuLoop imuOracleOkThenFail (fun _ => false) 0 3 = ([5], 2, true) := by
  have h := C5_read_failure_kills_loop imuOracleOkThenFail (fun _ => false) 0 1 3
    (fun _ => rfl) (by omega)
    (fun j hj => by
      have : j = 0 := by omega
      subst this
      decide)
    (by decide)
  rw [h]
  decide

/-- C6, counterexample: with the camera present and the capture
decision firing on the first tick, a capture failure propagates out of
the tick: the run produces no batch entry at all and the tick loop
terminates (`true` flags the uncaught exception).  The claim instead
predicts a completed tick appending an entry with no image and a loop
that keeps running (two entries from two ticks of fuel). -/
theorem C6_counterexample :
    sessionRun camFailCfg camFailInputs 0 0 2 = ([], true) ∧
    (sessionRun camFailCfg camFailInputs 0 0 2).1.length ≠ 2 ∧
    (sessionRun camFailCfg camFailInputs 0 0 2).2 ≠ false := by
  decide

/-- C6, amended: a `No Fix` GPS snapshot is replaced by the zeroed
placeholder and an IMU-drain failure is caught to an empty list — any
tick on which the capture does not fail completes and appends an entry
— but image capture is not wrapped: on a capture tick whose capture
fails, `snap_as_base64`'s exception escapes the tick, no entry is
appended, and the tick loop terminates. -/
theorem C6_tick_safety (cfg : TickConfig) (inp : TickInputs) (c now : ℕ) :
    ((inp.cam = .captureFail →
        ¬(cfg.camera_connected = true ∧ c = camera_interval cfg.sleep_interval)) →
      ∃ e c', sessionTick cfg inp c now = .ok (e, c') ∧
        (inp.imu = .drainExc → e.imu = []) ∧
        (inp.gps.fix_status = chars "No Fix" →
          e.latitude = 0 ∧ e.longitude = 0 ∧ e.speed_kmh = 0 ∧ e.heading = 0 ∧
          e.gps_fix = false)) ∧
    (cfg.camera_connected = true → c = camera_interval cfg.sleep_interval →
      inp.cam = .captureFail →
      sessionTick cfg inp c now = .error .captureExc ∧
      ∀ (inputs : ℕ → TickInputs) (i fuel : ℕ), inputs i = inp →
        sessionRun cfg inputs i c (fuel + 1) = ([], true)) := by
  constructor
  · intro hsafe
    have hcam : ∃ r, camStepRun cfg inp.cam c = .ok r := by
      by_cases hcond : cfg.camera_connected = true ∧ c = camera_interval cfg.sleep_interval
      · cases hc : inp.cam with
        | image im => exact ⟨(some im, 0), by unfold camStepRun; rw [if_pos hcond]⟩
        | captureFail => exact absurd hcond (hsafe hc)
      · by_cases hc2 : cfg.camera_connected = true
        · exact ⟨(none, c + 1), by unfold camStepRun; rw [if_neg hcond, if_pos hc2]⟩
        · exact ⟨(none, c), by unfold camStepRun; rw [if_neg hcond, if_neg hc2]⟩
    obtain ⟨r, hr⟩ := hcam
    simp only [sessionTick, hr]
    refine ⟨_, r.2, rfl, ?_, ?_⟩
    · intro hdr
      simp [hdr]
    · intro hfix
      simp [hfix, zeroGps, chars]
  · intro hcam hc hcap
    have herr : ∀ n, sessionTick cfg inp c n = .error .captureExc := by
      intro n
      simp only [sessionTick, camStepRun]
      rw [if_pos (⟨hcam, hc⟩ :
        cfg.camera_connected = true ∧ c = camera_interval cfg.sleep_interval), hcap]
    refine ⟨herr now, ?_⟩
    intro inputs i fuel hinp
    unfold sessionRun
    rw [hinp, herr i]

/-- C6 amended, witness: an IMU-drain failure with a no-fix snapshot
yields a completed tick with empty IMU list and zeroed position, while
the failing capture tick raises. -/
theorem C6_witness :
    (∃ e c', sessionTick flowCfg ⟨zeroGps, .image 9, 0, .drainExc⟩ 0 0 = .ok (e, c') ∧
      e.imu = [] ∧ e.latitude = 0) ∧
    sessionTick camFailCfg (camFailInputs 0) 0 0 = .error .captureExc := by
  constructor
  · obtain ⟨e, c', hok, himu, hgps⟩ :=
      (C6_tick_safety flowCfg ⟨zeroGps, .image 9, 0, .drainExc⟩ 0 0).1 (by intro h; cases h)
    exact ⟨e, c', hok, himu rfl, (hgps rfl).1⟩
  · exact ((C6_tick_safety camFailCfg (camFailInputs 0) 0 0).2 rfl rfl rfl).1

/-- C7, counterexample: with `sleep_interval = 10` the claim's window
is `interval / 5 = 2` ticks, and it demands exactly one capture among
any two consecutive ticks; but the first two ticks of a fresh session
capture zero times (the counter reaches `camera_interval` only on the
third tick — the capture pattern has period `interval / 5 + 1`). -/
theorem C7_counterexample :
    ((List.range 2).filter (fun i => camFires (camera_interval 10) i)).length = 0 ∧
    ¬((List.range 2).filter (fun i => camFires (camera_interval 10) i)).length = 1 := by
  decide

lemma camCounter_mod (k : ℕ) : ∀ i : ℕ, camCounter k i = i % (k + 1) := by
  intro i
  induction i with
  | zero => simp [camCounter]
  | succ i ih =>
    unfold camCounter
    rw [ih]
    by_cases h : i % (k + 1) = k
    · rw [if_pos h]
      have hd := Nat.div_add_mod i (k + 1)
      have heq : i + 1 = (k + 1) * (i / (k + 1) + 1) := by
        rw [Nat.mul_add, Nat.mul_one]
        omega
      rw [heq, Nat.mul_mod_right]
    · rw [if_neg h]
      have hlt : i % (k + 1) < k + 1 := Nat.mod_lt _ (by omega)
      have hd := Nat.div_add_mod i (k + 1)
      conv_rhs => rw [show i + 1 = (k + 1) * (i / (k + 1)) + (i % (k + 1) + 1) from by
        rw [← Nat.add_assoc, hd]]
      rw [Nat.mul_add_mod, Nat.mod_eq_of_lt
        (Nat.succ_lt_succ (Nat.lt_of_le_of_ne (Nat.le_of_lt_succ hlt) h))]

/-- C7, amended: the capture counter causes a capture exactly once
every `interval / 5 + 1` ticks: at the start of tick `i` the counter
equals `i % (interval / 5 + 1)`, and tick `i` captures exactly when
that remainder equals `interval / 5`. -/
theorem C7_capture_period (interval i : ℕ) :
    camCounter (camera_interval interval) i = i % (camera_interval interval + 1) ∧
    (camFires (camera_interval interval) i = true ↔
      i % (camera_interval interval + 1) = camera_interval interval) := by
  refine ⟨camCounter_mod (camera_interval interval) i, ?_⟩
  simp [camFires, camCounter_mod]

/-- C7 amended, witness: with `sleep_interval = 10` the first capture
happens on tick 2 (`2 % 3 = 2 = interval / 5`). -/
theorem C7_witness :
    camCounter (camera_interval 10) 2 = 2 % (camera_interval 10 + 1) ∧
    (camFires (camera_interval 10) 2 = true ↔
      2 % (camera_interval 10 + 1) = camera_interval 10) :=
  C7_capture_period 10 2

/-- C8: the per-tick volumetric value is `flow_counter /
flow_meter_pulses_per_litter` alone — the tick interval is never used
(the module computes `interval_in_hours` but the conversion ignores
it).  At 10 drained pulses, 2 pulses per liter and a 7200-second
(2-hour) tick, the code records 5 in the batch entry, while the
spec-described rate (liters per interval-in-hours) is 2.5. -/
theorem C8_flow_rate_ignores_interval :
    litter_per_hour 10 2 = 5 ∧
    spec_flow_rate 10 2 7200 = 5 / 2 ∧
    litter_per_hour 10 2 ≠ spec_flow_rate 10 2 7200 ∧
    sessionTick flowCfg flowInputs 0 0 =
      .ok (⟨0, 5, 1, 2, 4, 5, [], none, true⟩, 0) := by
  refine ⟨by norm_num [litter_per_hour],
    by norm_num [spec_flow_rate, litter_per_hour, interval_in_hours],
    by norm_num [litter_per_hour, spec_flow_rate, interval_in_hours], ?_⟩
  simp only [sessionTick, camStepRun, flowCfg, flowInputs]
  norm_num [litter_per_hour, camera_interval, zeroGps, chars,
    show ¬('V' = 'N') from by decide]

/-- C10, witness: a framed but unrecognized `$GPTXT` line at a concrete
time instantiates the freshness-reset statement. -/
theorem C10_witness :
    continuousReadStep 5 (chars "12:00:00") (chars "$GPTXT,hello*3F") (initGpsData 0) =
      { initGpsData 0 with data_timestamp := 5, last_update := chars "12:00:00" } ∧
    getDataAge 12 (continuousReadStep 5 (chars "12:00:00") (chars "$GPTXT,hello*3F")
      (initGpsData 0)) = 12 - 5 :=
  C10_unrecognized_framed_line 5 12 (chars "12:00:00") (chars "$GPTXT,hello*3F")
    (initGpsData 0) (by decide) (by decide) (by decide) (by decide) (by decide)
    (by decide) (by decide)

end DeviceManagement
